import Mathlib

/-!
Verification of the client-side authentication configuration resolver and
token-acquisition client (frontend `runtimeConfig.ts`, `AuthContext.tsx`,
`apiClient.ts`, `authenticatedApi.ts`) against its natural-language
specification.

The TypeScript is shallowly embedded: JavaScript `string | null | undefined`
values become `Option String` (with `none` for both `null` and `undefined`,
which the code only ever distinguishes through truthiness), JavaScript
truthiness and `a || b` are modelled explicitly, the network and the MSAL
library are oracles supplied as data, and `try`/`catch` structure is mirrored
with `Except`.
-/

/-- JavaScript truthiness of a `string | null | undefined` value:
`null`/`undefined` and the empty string are falsy. -/
def truthyS (o : Option String) : Bool :=
  !(o.getD "" == "")

/-- JavaScript `a || b` on `string | null | undefined` values. -/
def orJS (a b : Option String) : Option String :=
  if truthyS a then a else b

/-- JavaScript `a || b` on `string[] | undefined` values: every array is
truthy (including the empty array), so only `undefined` falls through. -/
def orJSList (a b : Option (List String)) : Option (List String) :=
  match a with
  | some l => some l
  | none => b

/-- The string content of a truthy optional value (`null`/`undefined` read
as the empty string; only used under a truthiness guard, mirroring template
interpolation of a value the code has just checked). -/
def getS (o : Option String) : String :=
  o.getD ""

/-- `interface RuntimeConfig` from `runtimeConfig.ts`: all four fields
optional. -/
structure RuntimeConfig where
  AZURE_CLIENT_ID : Option String
  AZURE_TENANT_ID : Option String
  AZURE_AUTHORITY : Option String
  API_SCOPES : Option (List String)
deriving Repr, DecidableEq

/-- The `{clientId, tenantId, authority}` JSON body returned by the backend
`/getMsalConfig` endpoint; each field may be `null`. -/
structure BackendConfig where
  clientId : Option String
  tenantId : Option String
  authority : Option String
deriving Repr, DecidableEq

/-- The first element of the `/.auth/me` claims array
(`interface AppServiceAuthInfo`); only `client_id` and `authority` are
consumed by the resolver. -/
structure AppServiceAuthInfo where
  client_id : Option String
  authority : Option String
deriving Repr, DecidableEq

/-- The injected global `window.__RUNTIME_CONFIG__` object. -/
structure InjectedConfig where
  AZURE_CLIENT_ID : Option String
  AZURE_TENANT_ID : Option String
  AZURE_AUTHORITY : Option String
  API_SCOPES : Option (List String)
deriving Repr, DecidableEq

/-- The build-time `import.meta.env.VITE_*` values. -/
structure BuildEnv where
  VITE_AZURE_CLIENT_ID : Option String
  VITE_AZURE_TENANT_ID : Option String
  VITE_AZURE_AUTHORITY : Option String
deriving Repr, DecidableEq

/-- One page load's view of the four configuration sources.
`backend = none` means the `/getMsalConfig` fetch failed or returned a
non-2xx status (the code then assigns nothing); `appService = none` means
the `/.auth/me` fetch failed, was non-2xx, or returned an empty array;
`injected = none` means the global object is absent. -/
structure ConfigSources where
  backend : Option BackendConfig
  appService : Option AppServiceAuthInfo
  injected : Option InjectedConfig
  env : BuildEnv
deriving Repr, DecidableEq

/-- A character admitted by the `[0-9a-f-]` class under the `i` flag. -/
def isHexDashChar (c : Char) : Bool :=
  c.isDigit || ('a' ≤ c && c ≤ 'f') || ('A' ≤ c && c ≤ 'F') || c == '-'

/-- Whether a path segment matches the alternation
`[0-9a-f-]{36}|common|organizations|consumers` case-insensitively. -/
def isTenantSegment (seg : List Char) : Bool :=
  (seg.length == 36 && seg.all isHexDashChar)
    || seg.map Char.toLower == "common".toList
    || seg.map Char.toLower == "organizations".toList
    || seg.map Char.toLower == "consumers".toList

/-- The regex match
`authority.match(/\/([0-9a-f-]{36}|common|organizations|consumers)\/?$/i)`:
after discarding at most one trailing slash, the trailing path segment must
be preceded by a literal `/` and match the tenant alternation; the capture
is the segment with its original casing. -/
def tenantMatch (authority : String) : Option String :=
  let r := authority.toList.reverse
  let r1 := match r with
    | '/' :: rest => rest
    | _ => r
  let seg := (r1.takeWhile (fun c => c != '/')).reverse
  let afterSeg := r1.dropWhile (fun c => c != '/')
  if afterSeg ≠ [] && isTenantSegment seg then
    some (String.mk seg)
  else
    none

/-- The empty `const config: RuntimeConfig = {}` the resolver starts from. -/
def emptyConfig : RuntimeConfig :=
  ⟨none, none, none, none⟩

/-- Source 1 of `loadRuntimeConfig`: when the backend responded 2xx, the
three fields are assigned unconditionally from the JSON body (even when
`null`). -/
def applyBackend (b? : Option BackendConfig) (c : RuntimeConfig) : RuntimeConfig :=
  match b? with
  | none => c
  | some b =>
      { c with
        AZURE_CLIENT_ID := b.clientId
        AZURE_TENANT_ID := b.tenantId
        AZURE_AUTHORITY := b.authority }

/-- Source 2 of `loadRuntimeConfig`: `/.auth/me`. `client_id` fills the
client id only when unset (`config.AZURE_CLIENT_ID || authInfo.client_id`),
but a truthy `authInfo.authority` is assigned unconditionally, and the
tenant id is overwritten whenever the authority's trailing segment matches
the tenant pattern. -/
def applyAppService (a? : Option AppServiceAuthInfo) (c : RuntimeConfig) : RuntimeConfig :=
  match a? with
  | none => c
  | some a =>
      let c1 := { c with AZURE_CLIENT_ID := orJS c.AZURE_CLIENT_ID a.client_id }
      if truthyS a.authority then
        let c2 := { c1 with AZURE_AUTHORITY := a.authority }
        match tenantMatch (getS a.authority) with
        | some t => { c2 with AZURE_TENANT_ID := some t }
        | none => c2
      else c1

/-- Source 3 of `loadRuntimeConfig`: the injected
`window.__RUNTIME_CONFIG__` global, merged with `||` per field. -/
def applyInjected (i? : Option InjectedConfig) (c : RuntimeConfig) : RuntimeConfig :=
  match i? with
  | none => c
  | some i =>
      { AZURE_CLIENT_ID := orJS c.AZURE_CLIENT_ID i.AZURE_CLIENT_ID
        AZURE_TENANT_ID := orJS c.AZURE_TENANT_ID i.AZURE_TENANT_ID
        AZURE_AUTHORITY := orJS c.AZURE_AUTHORITY i.AZURE_AUTHORITY
        API_SCOPES := orJSList c.API_SCOPES i.API_SCOPES }

/-- Source 4 of `loadRuntimeConfig`: build-time environment values, merged
with `||` per field. -/
def applyEnv (e : BuildEnv) (c : RuntimeConfig) : RuntimeConfig :=
  { c with
    AZURE_CLIENT_ID := orJS c.AZURE_CLIENT_ID e.VITE_AZURE_CLIENT_ID
    AZURE_TENANT_ID := orJS c.AZURE_TENANT_ID e.VITE_AZURE_TENANT_ID
    AZURE_AUTHORITY := orJS c.AZURE_AUTHORITY e.VITE_AZURE_AUTHORITY }

/-- Source 5 of `loadRuntimeConfig`: computed defaults — tenant-derived
authority, the generic `common` authority, and the default scope list
(`['User.Read']` plus, when a client id is known,
`api://{clientId}/access_as_user`). -/
def applyDefaults (c : RuntimeConfig) : RuntimeConfig :=
  let tenantAuthority := some ("https://login.microsoftonline.com/" ++ getS c.AZURE_TENANT_ID)
  let c1 :=
    if truthyS c.AZURE_TENANT_ID && !truthyS c.AZURE_AUTHORITY then
      { c with AZURE_AUTHORITY := tenantAuthority }
    else c
  let c2 :=
    if !truthyS c1.AZURE_AUTHORITY then
      { c1 with AZURE_AUTHORITY := some "https://login.microsoftonline.com/common" }
    else c1
  let defaultScopeList :=
    if truthyS c2.AZURE_CLIENT_ID then
      ["User.Read", "api://" ++ getS c2.AZURE_CLIENT_ID ++ "/access_as_user"]
    else
      ["User.Read"]
  if c2.API_SCOPES.isNone then
    { c2 with API_SCOPES := some defaultScopeList }
  else c2

/-- The pure merge performed by `loadRuntimeConfig` on a cache miss: the
four sources applied in precedence order, then the computed defaults. -/
def resolveConfig (s : ConfigSources) : RuntimeConfig :=
  applyDefaults (applyEnv s.env (applyInjected s.injected
    (applyAppService s.appService (applyBackend s.backend emptyConfig))))

/-- The module-level `let cachedConfig: RuntimeConfig | null = null` cell. -/
structure ResolverState where
  cachedConfig : Option RuntimeConfig
deriving Repr, DecidableEq

/-- Result of one `loadRuntimeConfig()` call: the returned config, the
updated module state, and how many network fetches the call issued (the
cache-miss path always issues the `/getMsalConfig` and `/.auth/me`
fetches; the cache-hit path issues none). -/
structure LoadResult where
  config : RuntimeConfig
  state : ResolverState
  networkCalls : Nat
deriving Repr, DecidableEq

/-- `loadRuntimeConfig`: return the cached config when present, otherwise
resolve from the sources and populate the cache. -/
def loadRuntimeConfig (srcs : ConfigSources) (st : ResolverState) : LoadResult :=
  match st.cachedConfig with
  | some c => ⟨c, st, 0⟩
  | none =>
      let c := resolveConfig srcs
      ⟨c, ⟨some c⟩, 2⟩

/-- `clearConfigCache`: reset the module-level cache cell to `null`. -/
def clearConfigCache (_st : ResolverState) : ResolverState :=
  ⟨none⟩

/-- `getCachedConfig`: read the cache cell without resolving. -/
def getCachedConfig (st : ResolverState) : Option RuntimeConfig :=
  st.cachedConfig

/-! ### Helper lemmas about the merge stages -/

theorem orJS_truthy (a b : Option String) (h : truthyS a = true) : orJS a b = a := by
  simp [orJS, h]

@[simp] theorem orJS_none_left (x : Option String) : orJS none x = x := by
  simp [orJS, truthyS]

theorem orJS_none_mid (a x : Option String) : orJS (orJS a none) x = orJS a x := by
  by_cases h : truthyS a = true <;> simp [orJS, h, truthyS] at * <;> simp [h]

theorem applyDefaults_clientId (c : RuntimeConfig) :
    (applyDefaults c).AZURE_CLIENT_ID = c.AZURE_CLIENT_ID := by
  unfold applyDefaults
  dsimp only
  split_ifs <;> rfl

theorem applyDefaults_tenantId (c : RuntimeConfig) :
    (applyDefaults c).AZURE_TENANT_ID = c.AZURE_TENANT_ID := by
  unfold applyDefaults
  dsimp only
  split_ifs <;> rfl

theorem applyDefaults_authority_truthy (c : RuntimeConfig)
    (h : truthyS c.AZURE_AUTHORITY = true) :
    (applyDefaults c).AZURE_AUTHORITY = c.AZURE_AUTHORITY := by
  unfold applyDefaults
  dsimp only
  split_ifs <;> simp_all

theorem applyAppService_none (c : RuntimeConfig) : applyAppService none c = c := rfl

theorem applyAppService_clientId (a : AppServiceAuthInfo) (c : RuntimeConfig) :
    (applyAppService (some a) c).AZURE_CLIENT_ID = orJS c.AZURE_CLIENT_ID a.client_id := by
  unfold applyAppService
  dsimp only
  split_ifs with h
  · split <;> rfl
  · rfl

theorem applyAppService_authority_truthy (a : AppServiceAuthInfo) (c : RuntimeConfig)
    (h : truthyS a.authority = true) :
    (applyAppService (some a) c).AZURE_AUTHORITY = a.authority := by
  unfold applyAppService
  dsimp only
  simp only [h, if_true]
  split <;> rfl

/-- The backend source's client-id contribution (`none` when the source is
absent or supplied `null`). -/
def backendClientId (s : ConfigSources) : Option String :=
  match s.backend with
  | some b => b.clientId
  | none => none

/-- The `/.auth/me` source's client-id contribution. -/
def appServiceClientId (s : ConfigSources) : Option String :=
  match s.appService with
  | some a => a.client_id
  | none => none

/-- The injected global's client-id contribution. -/
def injectedClientId (s : ConfigSources) : Option String :=
  match s.injected with
  | some i => i.AZURE_CLIENT_ID
  | none => none

/-- The build-time env client-id contribution. -/
def envClientId (s : ConfigSources) : Option String :=
  s.env.VITE_AZURE_CLIENT_ID

/-- The injected global's explicit scopes contribution. -/
def injectedScopes (s : ConfigSources) : Option (List String) :=
  match s.injected with
  | some i => i.API_SCOPES
  | none => none

/-- The resolved client id is exactly the JavaScript `||` fold of the four
sources' client-id contributions in precedence order. -/
theorem resolveConfig_clientId (s : ConfigSources) :
    (resolveConfig s).AZURE_CLIENT_ID =
      orJS (orJS (orJS (backendClientId s) (appServiceClientId s))
        (injectedClientId s)) (envClientId s) := by
  obtain ⟨b?, a?, i?, e⟩ := s
  simp only [resolveConfig, backendClientId, appServiceClientId, injectedClientId, envClientId]
  rw [applyDefaults_clientId]
  cases b? <;> cases a? <;> cases i? <;>
    simp [applyBackend, applyInjected, applyEnv, applyAppService_none,
      applyAppService_clientId, emptyConfig, orJS_none_mid]

theorem truthyS_some_iff (x : String) : truthyS (some x) = true ↔ x ≠ "" := by
  simp [truthyS]

/-- A successful tenant-pattern match captures a segment that satisfies the
alternation. -/
theorem tenantMatch_spec (s t : String) (h : tenantMatch s = some t) :
    ∃ seg, t = String.mk seg ∧ isTenantSegment seg = true := by
  unfold tenantMatch at h
  dsimp only at h
  split at h
  · rename_i hcond
    injection h with h'
    exact ⟨_, h'.symm, (Bool.and_eq_true _ _ |>.mp hcond).2⟩
  · cases h

theorem isTenantSegment_ne_nil (seg : List Char) (h : isTenantSegment seg = true) :
    seg ≠ [] := by
  intro hn
  rw [hn] at h
  exact absurd h (by decide)

/-- The captured tenant segment is never the empty string. -/
theorem tenantMatch_ne_empty (s t : String) (h : tenantMatch s = some t) : t ≠ "" := by
  obtain ⟨seg, rfl, hseg⟩ := tenantMatch_spec s t h
  intro he
  exact isTenantSegment_ne_nil seg hseg (by simpa using congrArg String.data he)

theorem applyInjected_none (c : RuntimeConfig) : applyInjected none c = c := rfl

/-- Sources 3–5 preserve an authority that is already truthy. -/
theorem downstream_authority (i? : Option InjectedConfig) (e : BuildEnv) (c : RuntimeConfig)
    (h : truthyS c.AZURE_AUTHORITY = true) :
    (applyDefaults (applyEnv e (applyInjected i? c))).AZURE_AUTHORITY = c.AZURE_AUTHORITY := by
  have h2 : (applyInjected i? c).AZURE_AUTHORITY = c.AZURE_AUTHORITY := by
    cases i? <;> simp [applyInjected, orJS_truthy _ _ h]
  have h3 : (applyEnv e (applyInjected i? c)).AZURE_AUTHORITY = c.AZURE_AUTHORITY := by
    simp [applyEnv, h2, orJS_truthy _ _ h]
  rw [applyDefaults_authority_truthy _ (by rw [h3]; exact h), h3]

/-- Sources 3–5 preserve a tenant id that is already truthy. -/
theorem downstream_tenantId (i? : Option InjectedConfig) (e : BuildEnv) (c : RuntimeConfig)
    (h : truthyS c.AZURE_TENANT_ID = true) :
    (applyDefaults (applyEnv e (applyInjected i? c))).AZURE_TENANT_ID = c.AZURE_TENANT_ID := by
  have h2 : (applyInjected i? c).AZURE_TENANT_ID = c.AZURE_TENANT_ID := by
    cases i? <;> simp [applyInjected, orJS_truthy _ _ h]
  have h3 : (applyEnv e (applyInjected i? c)).AZURE_TENANT_ID = c.AZURE_TENANT_ID := by
    simp [applyEnv, h2, orJS_truthy _ _ h]
  rw [applyDefaults_tenantId, h3]

theorem applyAppService_tenant_match (a : AppServiceAuthInfo) (c : RuntimeConfig) (t : String)
    (hta : truthyS a.authority = true) (htm : tenantMatch (getS a.authority) = some t) :
    (applyAppService (some a) c).AZURE_TENANT_ID = some t := by
  unfold applyAppService
  dsimp only
  rw [if_pos hta, htm]

/-- The C1 counterexample sources: the backend supplies non-null
`clientId`, `tenantId` and `authority`, and the `/.auth/me` source also
supplies a `client_id` and an `authority` whose trailing segment is
`common`. -/
def c1srcs : ConfigSources :=
  ⟨some ⟨some "bc", some "bt", some "https://x/bt"⟩,
    some ⟨some "ac", some "https://y/common"⟩, none, ⟨none, none, none⟩⟩

/-- Claim C1 counterexample: although the backend (highest-precedence
source) supplied the non-null authority `https://x/bt` and tenant `bt`,
the lower-precedence `/.auth/me` source replaces both — the resolved
authority is the App Service one and the resolved tenant is the segment
extracted from it, so a lower-precedence source does overwrite fields the
backend had set (while the client id keeps the backend value). -/
theorem c1_counterexample :
    c1srcs.backend = some ⟨some "bc", some "bt", some "https://x/bt"⟩
      ∧ (resolveConfig c1srcs).AZURE_AUTHORITY = some "https://y/common"
      ∧ (resolveConfig c1srcs).AZURE_AUTHORITY ≠ some "https://x/bt"
      ∧ (resolveConfig c1srcs).AZURE_TENANT_ID = some "common"
      ∧ (resolveConfig c1srcs).AZURE_CLIENT_ID = some "bc" := by
  refine ⟨rfl, by decide, by decide, by decide, by decide⟩

/-- Claim C1 amended: the fill-only-if-unset rule holds for `clientId`
(the resolved client id is the JavaScript `||` fold of the sources in
precedence order, so a backend-supplied non-empty client id is never
replaced), but the `/.auth/me` source, when it supplies a non-empty
`authority`, overwrites the authority unconditionally — and overwrites the
tenant id whenever that authority's trailing segment matches the tenant
pattern — regardless of what the backend supplied. -/
theorem c1_amended (s : ConfigSources) :
    ((resolveConfig s).AZURE_CLIENT_ID =
        orJS (orJS (orJS (backendClientId s) (appServiceClientId s))
          (injectedClientId s)) (envClientId s))
      ∧ (∀ b, s.backend = some b → truthyS b.clientId = true →
          (resolveConfig s).AZURE_CLIENT_ID = b.clientId)
      ∧ (∀ a, s.appService = some a → truthyS a.authority = true →
          (resolveConfig s).AZURE_AUTHORITY = a.authority)
      ∧ (∀ a t, s.appService = some a → truthyS a.authority = true →
          tenantMatch (getS a.authority) = some t →
          (resolveConfig s).AZURE_TENANT_ID = some t) := by
  obtain ⟨b?, a?, i?, e⟩ := s
  refine ⟨resolveConfig_clientId _, ?_, ?_, ?_⟩
  · intro b hb hcid
    rw [resolveConfig_clientId]
    simp only at hb
    subst hb
    simp only [backendClientId]
    rw [orJS_truthy _ _ hcid, orJS_truthy _ _ hcid, orJS_truthy _ _ hcid]
  · intro a ha hta
    simp only at ha
    subst ha
    unfold resolveConfig
    dsimp only
    rw [downstream_authority _ _ _ (by rw [applyAppService_authority_truthy _ _ hta]; exact hta)]
    exact applyAppService_authority_truthy _ _ hta
  · intro a t ha hta htm
    simp only at ha
    subst ha
    unfold resolveConfig
    dsimp only
    have htr : truthyS (some t) = true :=
      (truthyS_some_iff t).mpr (tenantMatch_ne_empty _ _ htm)
    rw [downstream_tenantId _ _ _
      (by rw [applyAppService_tenant_match _ _ _ hta htm]; exact htr)]
    exact applyAppService_tenant_match _ _ _ hta htm

/-- Concrete sources instantiating the amended C1 theorem. -/
def c1wsrcs : ConfigSources :=
  ⟨some ⟨some "bc", none, none⟩, some ⟨some "ac", some "https://y/common"⟩,
    some ⟨some "ic", none, none, none⟩, ⟨some "ec", none, none⟩⟩

/-- Witness for the amended C1 theorem at concrete sources: the backend's
non-empty client id survives every lower source, the App Service authority
wins, and the extracted tenant is `common`. -/
theorem c1_amended_witness :
    (resolveConfig c1wsrcs).AZURE_CLIENT_ID = some "bc"
      ∧ (resolveConfig c1wsrcs).AZURE_AUTHORITY = some "https://y/common"
      ∧ (resolveConfig c1wsrcs).AZURE_TENANT_ID = some "common" :=
  ⟨(c1_amended c1wsrcs).2.1 _ rfl (by decide),
    (c1_amended c1wsrcs).2.2.1 _ rfl (by decide),
    (c1_amended c1wsrcs).2.2.2 _ "common" rfl (by decide) (by decide)⟩

/-- The C4 scenario: backend returns `{clientId:"c1", tenantId:"t1",
authority:null}`, `/.auth/me` unavailable, no injected global, no
build-time env values. -/
def c4srcs : ConfigSources :=
  ⟨some ⟨some "c1", some "t1", none⟩, none, none, ⟨none, none, none⟩⟩

/-- Claim C4 (confirmed): in the C4 scenario, `loadRuntimeConfig` resolves
exactly client id `c1`, tenant `t1`, the tenant-derived authority
`https://login.microsoftonline.com/t1`, and scopes
`["User.Read", "api://c1/access_as_user"]` in that order. -/
theorem c4_scenario_resolution :
    resolveConfig c4srcs =
      ⟨some "c1", some "t1", some "https://login.microsoftonline.com/t1",
        some ["User.Read", "api://c1/access_as_user"]⟩ := by
  decide

/-- Claim C6 (confirmed): a second `loadRuntimeConfig` call without an
intervening `clearConfigCache` returns the identical cached value and
issues no network calls; after `clearConfigCache`, the next call
re-resolves from the sources (issuing its network fetches again). -/
theorem c6_cache_idempotence (srcs srcs2 : ConfigSources) (st : ResolverState) :
    (loadRuntimeConfig srcs2 (loadRuntimeConfig srcs st).state).config
        = (loadRuntimeConfig srcs st).config
      ∧ (loadRuntimeConfig srcs2 (loadRuntimeConfig srcs st).state).networkCalls = 0
      ∧ (loadRuntimeConfig srcs2 (clearConfigCache (loadRuntimeConfig srcs st).state)).config
          = resolveConfig srcs2
      ∧ (loadRuntimeConfig srcs2 (clearConfigCache (loadRuntimeConfig srcs st).state)).networkCalls
          = 2 := by
  cases h : st.cachedConfig <;>
    simp [loadRuntimeConfig, clearConfigCache, h]

/-! ### C5: authority and scope invariants -/

/-- After the defaults stage the authority is always truthy: either it
already was, or the `common` fallback was assigned. -/
theorem applyDefaults_authority_truthy_always (c : RuntimeConfig) :
    truthyS (applyDefaults c).AZURE_AUTHORITY = true := by
  unfold applyDefaults
  dsimp only
  split_ifs <;> first | rfl | simp_all

/-- Sources 1 and 2 never touch `API_SCOPES`. -/
theorem upstream_scopes_none (b? : Option BackendConfig) (a? : Option AppServiceAuthInfo) :
    (applyAppService a? (applyBackend b? emptyConfig)).API_SCOPES = none := by
  cases b? <;> cases a? <;>
    (unfold applyAppService applyBackend emptyConfig) <;> dsimp only <;>
    (first
      | rfl
      | (split_ifs <;> (try split) <;> rfl))

theorem applyEnv_scopes (e : BuildEnv) (c : RuntimeConfig) :
    (applyEnv e c).API_SCOPES = c.API_SCOPES := rfl

theorem applyDefaults_scopes_some (c : RuntimeConfig) (l : List String)
    (h : c.API_SCOPES = some l) : (applyDefaults c).API_SCOPES = some l := by
  unfold applyDefaults
  dsimp only
  split_ifs <;> simp_all

theorem applyDefaults_scopes_none (c : RuntimeConfig) (h : c.API_SCOPES = none) :
    ∃ rest, (applyDefaults c).API_SCOPES = some ("User.Read" :: rest) := by
  unfold applyDefaults
  dsimp only
  split_ifs <;> first | exact ⟨_, rfl⟩ | simp_all

/-- The scopes reaching the defaults stage are exactly the injected
global's explicit scopes (or `undefined` when absent). -/
theorem resolveConfig_scopes_pre (s : ConfigSources) :
    (applyEnv s.env (applyInjected s.injected
        (applyAppService s.appService (applyBackend s.backend emptyConfig)))).API_SCOPES
      = injectedScopes s := by
  obtain ⟨b?, a?, i?, e⟩ := s
  rw [applyEnv_scopes]
  cases i? <;>
    simp [applyInjected, injectedScopes, orJSList, upstream_scopes_none]

/-- The C5 counterexample sources: the injected global supplies an
explicit empty scopes array. -/
def c5srcs : ConfigSources :=
  ⟨none, none, some ⟨none, none, none, some []⟩, ⟨none, none, none⟩⟩

/-- Claim C5 counterexample: with an injected `API_SCOPES: []` (a truthy
empty array in JavaScript), the resolved scope list is empty — it contains
no baseline scope at all. -/
theorem c5_counterexample :
    (resolveConfig c5srcs).API_SCOPES = some []
      ∧ ∀ l, (resolveConfig c5srcs).API_SCOPES = some l → "User.Read" ∉ l := by
  refine ⟨by decide, ?_⟩
  intro l hl
  have : l = [] := by
    have h0 : (resolveConfig c5srcs).API_SCOPES = some [] := by decide
    rw [h0] at hl
    exact (Option.some_inj.mp hl).symm
  simp [this]

/-- Claim C5 amended: the resolved authority is always non-empty, and the
resolved scope list starts with the baseline `User.Read` scope whenever no
source supplied an explicit `API_SCOPES` array; an explicitly supplied
array (even the empty one) is used as-is. -/
theorem c5_amended (s : ConfigSources) :
    truthyS (resolveConfig s).AZURE_AUTHORITY = true
      ∧ (injectedScopes s = none →
          ∃ rest, (resolveConfig s).API_SCOPES = some ("User.Read" :: rest))
      ∧ (∀ l, injectedScopes s = some l → (resolveConfig s).API_SCOPES = some l) := by
  refine ⟨applyDefaults_authority_truthy_always _, ?_, ?_⟩
  · intro h
    exact applyDefaults_scopes_none _ (by rw [resolveConfig_scopes_pre]; exact h)
  · intro l hl
    exact applyDefaults_scopes_some _ _ (by rw [resolveConfig_scopes_pre]; exact hl)

/-- Sources instantiating the amended C5 theorem: nothing supplies
explicit scopes, the backend supplies only a client id. -/
def c5wsrcs : ConfigSources :=
  ⟨some ⟨some "abc", none, none⟩, none, none, ⟨none, none, none⟩⟩

/-- Witness for the amended C5 theorem at concrete sources. -/
theorem c5_amended_witness :
    truthyS (resolveConfig c5wsrcs).AZURE_AUTHORITY = true
      ∧ ∃ rest, (resolveConfig c5wsrcs).API_SCOPES = some ("User.Read" :: rest) :=
  ⟨(c5_amended c5wsrcs).1, (c5_amended c5wsrcs).2.1 rfl⟩

/-! ### Token acquisition and the API dispatcher

The MSAL library is an oracle: the account cache plus, for the `i`-th
token-acquisition call of a scenario, the outcome of `acquireTokenSilent`
and of `acquireTokenPopup`. `Except` mirrors JavaScript exception flow:
`.error` is an uncaught throw reaching the caller. -/

/-- Outcome of one `instance.acquireTokenSilent` call: a token, an
`InteractionRequiredAuthError`, or any other thrown error. -/
inductive TokenResult where
  | ok (token : String)
  | errInteractionRequired
  | errOther (msg : String)
deriving Repr, DecidableEq

/-- The MSAL `PublicClientApplication` modelled as an oracle. Redirect
fields are `none` when the navigation call resolves, `some msg` when it
throws. -/
structure MsalOracle where
  accounts : List String
  silentResult : Nat → TokenResult
  popupResult : Nat → Option String
  loginRedirectThrow : Option String
  logoutRedirectThrow : Option String

/-- React state of `AuthProvider` in `AuthContext.tsx`. -/
structure AuthState where
  msal : Option MsalOracle
  accounts : List String
  isAuthenticated : Bool
  error : Option String

/-- Result of one `acquireTokenSilently` call: the settled promise (or an
uncaught throw), the `error` state afterwards, and whether
`acquireTokenPopup` was attempted. -/
structure AcquireOutcome where
  result : Except String (Option String)
  errorAfter : Option String
  popupAttempted : Bool
deriving Repr

/-- `AuthContext.acquireTokenSilently`: null for the expected guard
conditions; silent fetch; popup escalation only on
`InteractionRequiredAuthError`; every failure caught. -/
def acquireTokenSilently (st : AuthState) (i : Nat) (_scopes : List String) : AcquireOutcome :=
  match st.msal with
  | none => ⟨.ok none, st.error, false⟩
  | some m =>
      if !st.isAuthenticated || st.accounts.isEmpty then
        ⟨.ok none, st.error, false⟩
      else
        match m.silentResult i with
        | .ok t => ⟨.ok (some t), none, false⟩
        | .errInteractionRequired =>
            match m.popupResult i with
            | some t => ⟨.ok (some t), none, true⟩
            | none => ⟨.ok none, some "Failed to acquire token", true⟩
        | .errOther _ => ⟨.ok none, some "Failed to acquire token silently", false⟩

/-- `AuthContext.login`: throws when no instance; treats cached accounts
as already signed in; otherwise starts the redirect flow (a throw there is
caught, sets the error state, and is rethrown). -/
def login (st : AuthState) : Except String Unit × AuthState :=
  match st.msal with
  | none => (.error "MSAL instance not initialized", st)
  | some m =>
      let st1 := { st with error := none }
      if !m.accounts.isEmpty then
        (.ok (), { st1 with accounts := m.accounts, isAuthenticated := true })
      else
        match m.loginRedirectThrow with
        | none => (.ok (), st1)
        | some e => (.error e, { st1 with error := some "Login failed" })

/-- `AuthContext.logout`: throws when no instance; starts the redirect
sign-out when an account is cached (a throw there is caught, sets the
error state, and is rethrown before the local cache is cleared). -/
def logout (st : AuthState) : Except String Unit × AuthState :=
  match st.msal with
  | none => (.error "MSAL instance not initialized", st)
  | some m =>
      let st1 := { st with error := none }
      if !m.accounts.isEmpty then
        match m.logoutRedirectThrow with
        | none => (.ok (), { st1 with accounts := [], isAuthenticated := false })
        | some e => (.error e, { st1 with error := some "Logout failed" })
      else
        (.ok (), { st1 with accounts := [], isAuthenticated := false })

/-- State of the `AuthenticatedApiClient` singleton in `apiClient.ts`. -/
structure AuthenticatedApiClient where
  msalInstance : Option MsalOracle
  defaultScopes : List String

/-- `apiClient.setMsalInstance`. -/
def setMsalInstance (c : AuthenticatedApiClient) (m : MsalOracle) : AuthenticatedApiClient :=
  { c with msalInstance := some m }

/-- The singleton `export const apiClient = new AuthenticatedApiClient()`. -/
def apiClient : AuthenticatedApiClient :=
  ⟨none, ["User.Read"]⟩

/-- Result of one private `getAccessToken` call of the dispatcher. -/
structure GetTokenOutcome where
  result : Except String (Option String)
  popupAttempted : Bool
deriving Repr

/-- The dispatcher's private `getAccessToken`: warn-and-null when no
instance or no account; silent fetch; on ANY caught failure, an
interactive popup fallback (the account list is re-read and is still
non-empty); a popup failure is also caught and yields null. -/
def getAccessToken (client : AuthenticatedApiClient) (i : Nat) (_scopes : List String) :
    GetTokenOutcome :=
  match client.msalInstance with
  | none => ⟨.ok none, false⟩
  | some m =>
      if m.accounts.isEmpty then
        ⟨.ok none, false⟩
      else
        match m.silentResult i with
        | .ok t => ⟨.ok (some t), false⟩
        | _ =>
            match m.popupResult i with
            | some t => ⟨.ok (some t), true⟩
            | none => ⟨.ok none, true⟩

/-- The token component of a `getAccessToken` outcome. -/
def tokenOf (g : GetTokenOutcome) : Option String :=
  match g.result with
  | .ok v => v
  | .error _ => none

/-- `getAccessToken` never throws: every branch catches. -/
theorem getAccessToken_ok (client : AuthenticatedApiClient) (i : Nat) (scopes : List String) :
    (getAccessToken client i scopes).result = .ok (tokenOf (getAccessToken client i scopes)) := by
  unfold getAccessToken tokenOf
  cases client.msalInstance with
  | none => rfl
  | some m =>
      dsimp only
      split_ifs
      · rfl
      · cases m.silentResult i <;> dsimp only <;>
          (first | rfl | (cases m.popupResult i <;> rfl))

/-! ### HTTP plumbing: headers, bodies, JSON -/

/-- A JavaScript `Record<string,string>` header object: assignment
overwrites an existing key in place, otherwise appends. -/
def setHeader (hs : List (String × String)) (k v : String) : List (String × String) :=
  if hs.any (fun p => p.1 == k) then
    hs.map (fun p => if p.1 == k then (k, v) else p)
  else
    hs ++ [(k, v)]

/-- Object spread `{...base, ...extra}`: each key of `extra` overwrites or
appends in order. -/
def mergeHeaders (base extra : List (String × String)) : List (String × String) :=
  extra.foldl (fun acc kv => setHeader acc kv.1 kv.2) base

/-- Header lookup by exact key. -/
def lookupHeader (hs : List (String × String)) (k : String) : Option String :=
  (hs.find? (fun p => p.1 == k)).map (fun p => p.2)

/-- The JSON value fragment `JSON.stringify` is applied to. -/
inductive JsValue where
  | nullV
  | boolV (b : Bool)
  | numV (n : Int)
  | strV (s : String)
  | arr (elems : List JsValue)
  | obj (fields : List (String × JsValue))
deriving Repr

/-- JavaScript truthiness of a `JsValue` (arrays and objects are always
truthy). -/
def jsTruthy : JsValue → Bool
  | .nullV => false
  | .boolV b => b
  | .numV n => n != 0
  | .strV s => s != ""
  | .arr _ => true
  | .obj _ => true

/-- String-escape of `JSON.stringify` for quotes and backslashes. -/
def jsonEscape (s : String) : String :=
  s.foldl (fun acc c =>
    acc ++ (if c == '"' then "\\\"" else if c == '\\' then "\\\\" else String.singleton c)) ""

mutual

/-- `JSON.stringify` on the modelled value fragment. -/
def jsonStringify : JsValue → String
  | .nullV => "null"
  | .boolV true => "true"
  | .boolV false => "false"
  | .numV n => toString n
  | .strV s => "\"" ++ jsonEscape s ++ "\""
  | .arr l => "[" ++ jsonStringifyList l ++ "]"
  | .obj fs => "\x7b" ++ jsonStringifyFields fs ++ "\x7d"

def jsonStringifyList : List JsValue → String
  | [] => ""
  | [x] => jsonStringify x
  | x :: xs => jsonStringify x ++ "," ++ jsonStringifyList xs

def jsonStringifyFields : List (String × JsValue) → String
  | [] => ""
  | [(k, v)] => "\"" ++ jsonEscape k ++ "\":" ++ jsonStringify v
  | (k, v) :: fs => "\"" ++ jsonEscape k ++ "\":" ++ jsonStringify v ++ "," ++ jsonStringifyFields fs

end

/-- A request body: a JSON-encoded string or a multipart `FormData`
(ordered field/value pairs). -/
inductive RequestBody where
  | json (s : String)
  | formData (parts : List (String × String))
deriving Repr, DecidableEq

/-- `AuthenticatedFetchOptions`: method, body, caller headers, optional
explicit scopes (defaulting to the client's), and `skipAuth`. -/
structure FetchOptions where
  method : Option String
  body : Option RequestBody
  headers : List (String × String)
  scopes : Option (List String)
  skipAuth : Bool
deriving Repr, DecidableEq

/-- An HTTP response as the dispatcher observes it. -/
structure Response where
  status : Nat
deriving Repr, DecidableEq

/-- One `fetch` invocation as issued by the dispatcher. -/
structure FetchCall where
  url : String
  method : Option String
  headers : List (String × String)
  body : Option RequestBody
deriving Repr, DecidableEq

/-- Result of one `authenticatedFetch`: the settled promise (or an
uncaught throw), the trace of issued `fetch` calls, and the number of
`getAccessToken` invocations. -/
structure DispatchResult where
  result : Except String Response
  calls : List FetchCall
  tokenFetches : Nat
deriving Repr

/-- `apiClient.authenticatedFetch`: baseline JSON content-type plus caller
headers; bearer header when a token is obtained; one-shot refresh-and-retry
on a 401 when `skipAuth` is false. `responses i` is the transport's answer
to the `i`-th issued request. -/
def authenticatedFetch (client : AuthenticatedApiClient) (url : String) (opts : FetchOptions)
    (responses : Nat → Response) : DispatchResult :=
  let scopes := opts.scopes.getD client.defaultScopes
  let headers0 := mergeHeaders [("Content-Type", "application/json")] opts.headers
  if opts.skipAuth then
    let call1 : FetchCall := ⟨url, opts.method, headers0, opts.body⟩
    ⟨.ok (responses 0), [call1], 0⟩
  else
    match (getAccessToken client 0 scopes).result with
    | .error e => ⟨.error e, [], 1⟩
    | .ok tok =>
        let headers1 :=
          match tok with
          | some t => setHeader headers0 "Authorization" ("Bearer " ++ t)
          | none => headers0
        let call1 : FetchCall := ⟨url, opts.method, headers1, opts.body⟩
        let r1 := responses 0
        if r1.status = 401 then
          match (getAccessToken client 1 scopes).result with
          | .error e => ⟨.error e, [call1], 2⟩
          | .ok fresh =>
              match fresh with
              | some t2 =>
                  let headers2 := setHeader headers1 "Authorization" ("Bearer " ++ t2)
                  let call2 : FetchCall := ⟨url, opts.method, headers2, opts.body⟩
                  ⟨.ok (responses 1), [call1, call2], 2⟩
              | none => ⟨.ok r1, [call1], 2⟩
        else
          ⟨.ok r1, [call1], 1⟩

/-- The `get` convenience wrapper. -/
def getRequest (client : AuthenticatedApiClient) (url : String) (opts : FetchOptions)
    (responses : Nat → Response) : DispatchResult :=
  authenticatedFetch client url { opts with method := some "GET" } responses

/-- The `post` convenience wrapper: `body ? JSON.stringify(body) :
undefined`. -/
def post (client : AuthenticatedApiClient) (url : String) (body : Option JsValue)
    (opts : FetchOptions) (responses : Nat → Response) : DispatchResult :=
  authenticatedFetch client url
    { opts with
      method := some "POST"
      body :=
        match body with
        | some b => if jsTruthy b then some (RequestBody.json (jsonStringify b)) else none
        | none => none }
    responses

/-- The `put` convenience wrapper: same body treatment as `post`. -/
def put (client : AuthenticatedApiClient) (url : String) (body : Option JsValue)
    (opts : FetchOptions) (responses : Nat → Response) : DispatchResult :=
  authenticatedFetch client url
    { opts with
      method := some "PUT"
      body :=
        match body with
        | some b => if jsTruthy b then some (RequestBody.json (jsonStringify b)) else none
        | none => none }
    responses

/-- The `FormData` assembled by `uploadFileAuthenticated`: the file, then
`tags` (JSON-encoded) when non-empty, then `folder` when truthy. -/
def buildUploadForm (file : String) (tags : List String) (folder : String) :
    List (String × String) :=
  [("file", file)]
    ++ (if tags.length > 0 then
          [("tags", jsonStringify (JsValue.arr (tags.map JsValue.strV)))]
        else [])
    ++ (if folder ≠ "" then [("folder", folder)] else [])

/-- `uploadFileAuthenticated`: POST the `FormData` to `/upload` through
`authenticatedFetch`, passing an empty caller-headers object (its only
content in the source is the comment saying not to set a content type). -/
def uploadFileAuthenticated (client : AuthenticatedApiClient) (responses : Nat → Response)
    (file : String) (tags : List String) (folder : String) : DispatchResult :=
  authenticatedFetch client "/upload"
    { method := some "POST"
      body := some (RequestBody.formData (buildUploadForm file tags folder))
      headers := []
      scopes := none
      skipAuth := false }
    responses

/-! ### Header lookup lemmas -/

theorem find?_map_update_self (t : List (String × String)) (k v : String)
    (h : t.any (fun p => p.1 == k) = true) :
    (t.map (fun p => if p.1 == k then (k, v) else p)).find? (fun p => p.1 == k)
      = some (k, v) := by
  induction t with
  | nil => simp at h
  | cons p t ih =>
      by_cases hp : (p.1 == k) = true
      · have hpe : p.1 = k := by simpa using hp
        simp [List.find?_cons, hpe]
      · rw [List.any_cons] at h
        have h' : t.any (fun p => p.1 == k) = true := by
          rcases Bool.or_eq_true _ _ |>.mp h with h1 | h2
          · exact absurd h1 hp
          · exact h2
        simp only [List.map_cons, hp, if_false, Bool.false_eq_true]
        rw [List.find?_cons_of_neg _ (by simp_all), ih h']

theorem find?_map_update_other (t : List (String × String)) (k kp v : String)
    (hk : (kp == k) = false) :
    (t.map (fun p => if p.1 == kp then (kp, v) else p)).find? (fun p => p.1 == k)
      = t.find? (fun p => p.1 == k) := by
  induction t with
  | nil => rfl
  | cons p t ih =>
      by_cases hp : (p.1 == kp) = true
      · have hpk : (p.1 == k) = false := by
          have hpe : p.1 = kp := by simpa using hp
          rw [hpe]; exact hk
        simp only [List.map_cons, hp, if_true]
        rw [List.find?_cons_of_neg _ (by simp [hk]),
          List.find?_cons_of_neg _ (by simp [hpk]), ih]
      · simp only [List.map_cons, hp, if_false, Bool.false_eq_true]
        by_cases hpk : (p.1 == k) = true
        · rw [List.find?_cons_of_pos _ (by simpa using hpk),
            List.find?_cons_of_pos _ (by simpa using hpk)]
        · rw [List.find?_cons_of_neg _ (by simp_all),
            List.find?_cons_of_neg _ (by simp_all), ih]

theorem find?_setHeader_self (hs : List (String × String)) (k v : String) :
    (setHeader hs k v).find? (fun p => p.1 == k) = some (k, v) := by
  unfold setHeader
  split_ifs with h
  · exact find?_map_update_self hs k v h
  · rw [List.find?_append]
    have hnone : hs.find? (fun p => p.1 == k) = none := by
      rw [List.find?_eq_none]
      intro x hx hpx
      exact h (List.any_eq_true.mpr ⟨x, hx, hpx⟩)
    simp [hnone, List.find?_cons]

theorem lookupHeader_setHeader_self (hs : List (String × String)) (k v : String) :
    lookupHeader (setHeader hs k v) k = some v := by
  unfold lookupHeader
  rw [find?_setHeader_self]
  rfl

theorem lookupHeader_setHeader_other (hs : List (String × String)) (k kp v : String)
    (hk : (kp == k) = false) :
    lookupHeader (setHeader hs kp v) k = lookupHeader hs k := by
  unfold setHeader lookupHeader
  split_ifs with h
  · rw [find?_map_update_other hs k kp v hk]
  · rw [List.find?_append]
    have : List.find? (fun p => p.1 == k) [(kp, v)] = none := by
      simp [List.find?_cons, hk]
    simp [this]

theorem lookupHeader_mergeHeaders_none (extra : List (String × String)) (k : String) :
    ∀ base : List (String × String), lookupHeader base k = none →
      (∀ p ∈ extra, (p.1 == k) = false) →
      lookupHeader (mergeHeaders base extra) k = none := by
  induction extra with
  | nil => intro base hb _; exact hb
  | cons p t ih =>
      intro base hb he
      unfold mergeHeaders
      rw [List.foldl_cons]
      refine ih (setHeader base p.1 p.2) ?_ ?_
      · rw [lookupHeader_setHeader_other _ _ _ _ (he p (List.mem_cons_self _ _))]
        exact hb
      · intro q hq
        exact he q (List.mem_cons_of_mem _ hq)

theorem lookupHeader_eq_none_iff (hs : List (String × String)) (k : String) :
    lookupHeader hs k = none ↔ ∀ p ∈ hs, (p.1 == k) = false := by
  unfold lookupHeader
  rw [Option.map_eq_none', List.find?_eq_none]
  constructor
  · intro h p hp
    have := h p hp
    simpa using this
  · intro h p hp
    simp [h p hp]

/-! ### C2: the one-shot 401 retry -/

/-- Claim C2 (confirmed): when `skipAuth` is false and the first response
has status exactly 401, exactly one token re-acquisition follows the
initial one (two `getAccessToken` calls in total); if it yields a token
the request is retried exactly once with the refreshed bearer header and
that second response is returned as-is whatever its status; if it yields
no token, the original 401 response is returned with no retry. -/
theorem c2_single_retry_on_401 (client : AuthenticatedApiClient) (url : String)
    (opts : FetchOptions) (responses : Nat → Response)
    (hskip : opts.skipAuth = false) (h401 : (responses 0).status = 401) :
    (authenticatedFetch client url opts responses).tokenFetches = 2
      ∧ (∀ t, tokenOf (getAccessToken client 1 (opts.scopes.getD client.defaultScopes)) = some t →
          ∃ c1 c2, (authenticatedFetch client url opts responses).calls = [c1, c2]
            ∧ lookupHeader c2.headers "Authorization" = some ("Bearer " ++ t)
            ∧ (authenticatedFetch client url opts responses).result = .ok (responses 1))
      ∧ (tokenOf (getAccessToken client 1 (opts.scopes.getD client.defaultScopes)) = none →
          ∃ c1, (authenticatedFetch client url opts responses).calls = [c1]
            ∧ (authenticatedFetch client url opts responses).result = .ok (responses 0)) := by
  unfold authenticatedFetch
  rw [hskip]
  simp only [Bool.false_eq_true, if_false]
  rw [getAccessToken_ok client 0, getAccessToken_ok client 1]
  dsimp only
  rw [if_pos h401]
  cases h1 : tokenOf (getAccessToken client 1 (opts.scopes.getD client.defaultScopes)) with
  | some t2 =>
      refine ⟨rfl, ?_, ?_⟩
      · intro t ht
        cases ht
        exact ⟨_, _, rfl, lookupHeader_setHeader_self _ _ _, rfl⟩
      · intro hn
        cases hn
  | none =>
      refine ⟨rfl, ?_, ?_⟩
      · intro t ht
        cases ht
      · intro _
        exact ⟨_, rfl, rfl⟩

/-- The MSAL oracle for the C2 witness: one cached account, silent
acquisition always succeeds with `tok`, popups never used. -/
def c2client : AuthenticatedApiClient :=
  ⟨some ⟨["acct"], fun _ => .ok "tok", fun _ => none, none, none⟩, ["User.Read"]⟩

/-- The transport for the C2 witness: first answer 401, then 200. -/
def c2resp : Nat → Response :=
  fun i => if i = 0 then ⟨401⟩ else ⟨200⟩

/-- Witness for C2 at a concrete client, options and transport: two token
fetches, two issued requests, refreshed bearer header on the retry, and
the second response returned. -/
theorem c2_single_retry_witness :
    (authenticatedFetch c2client "/info" ⟨some "GET", none, [], none, false⟩ c2resp).tokenFetches = 2
      ∧ ∃ c1 c2,
          (authenticatedFetch c2client "/info" ⟨some "GET", none, [], none, false⟩ c2resp).calls
            = [c1, c2]
          ∧ lookupHeader c2.headers "Authorization" = some ("Bearer " ++ "tok")
          ∧ (authenticatedFetch c2client "/info" ⟨some "GET", none, [], none, false⟩ c2resp).result
              = .ok (c2resp 1) :=
  ⟨(c2_single_retry_on_401 c2client "/info" ⟨some "GET", none, [], none, false⟩ c2resp rfl rfl).1,
    (c2_single_retry_on_401 c2client "/info" ⟨some "GET", none, [], none, false⟩ c2resp rfl rfl).2.1
      "tok" rfl⟩

/-! ### C3: silent-then-interactive escalation -/

/-- Whether a silent outcome is the `InteractionRequiredAuthError` class. -/
def isInteractionRequired : TokenResult → Bool
  | .errInteractionRequired => true
  | _ => false

/-- Whether a silent outcome is a success. -/
def isSilentOk : TokenResult → Bool
  | .ok _ => true
  | _ => false

/-- The MSAL oracle of the C3 counterexample: the silent attempt fails
with an ordinary error (not interaction-required). -/
def c3m : MsalOracle :=
  ⟨["acct"], fun _ => .errOther "boom", fun _ => some "ptok", none, none⟩

/-- Claim C3 counterexample: the dispatcher's `getAccessToken` escalates
to the interactive popup although the silent failure is not of the
interaction-required class — its catch-all `catch` attempts the popup for
every silent failure, refuting the "only when" direction. -/
theorem c3_counterexample :
    c3m.silentResult 0 = .errOther "boom"
      ∧ isInteractionRequired (c3m.silentResult 0) = false
      ∧ (getAccessToken ⟨some c3m, ["User.Read"]⟩ 0 ["User.Read"]).popupAttempted = true :=
  ⟨rfl, rfl, rfl⟩

/-- Claim C3 amended: `AuthContext.acquireTokenSilently` escalates to the
popup exactly when the guards pass and the silent failure is
interaction-required; any other silent failure sets the diagnostic error
and resolves to null; a failed popup escalation resolves to null with the
diagnostic error set; and the operation never throws. The dispatcher's
`getAccessToken`, however, escalates to the popup on EVERY caught silent
failure (interaction-required or not) whenever an account exists, resolves
to null if the popup also fails, sets no diagnostic state, and never
throws. -/
theorem c3_amended (m : MsalOracle) (acc : List String) (isAuth : Bool) (err0 : Option String)
    (ds : List String) (i : Nat) (scopes : List String) :
    ((acquireTokenSilently ⟨some m, acc, isAuth, err0⟩ i scopes).result.isOk = true)
      ∧ ((acquireTokenSilently ⟨some m, acc, isAuth, err0⟩ i scopes).popupAttempted
          = (isAuth && !acc.isEmpty && isInteractionRequired (m.silentResult i)))
      ∧ (∀ msg, isAuth = true → acc ≠ [] → m.silentResult i = .errOther msg →
          (acquireTokenSilently ⟨some m, acc, isAuth, err0⟩ i scopes).result = .ok none
            ∧ (acquireTokenSilently ⟨some m, acc, isAuth, err0⟩ i scopes).errorAfter
                = some "Failed to acquire token silently")
      ∧ (isAuth = true → acc ≠ [] → m.silentResult i = .errInteractionRequired →
          m.popupResult i = none →
          (acquireTokenSilently ⟨some m, acc, isAuth, err0⟩ i scopes).result = .ok none
            ∧ (acquireTokenSilently ⟨some m, acc, isAuth, err0⟩ i scopes).errorAfter
                = some "Failed to acquire token")
      ∧ ((getAccessToken ⟨some m, ds⟩ i scopes).result.isOk = true)
      ∧ ((getAccessToken ⟨some m, ds⟩ i scopes).popupAttempted
          = (!m.accounts.isEmpty && !isSilentOk (m.silentResult i)))
      ∧ (m.accounts ≠ [] → isSilentOk (m.silentResult i) = false → m.popupResult i = none →
          (getAccessToken ⟨some m, ds⟩ i scopes).result = .ok none)
      ∧ ((acquireTokenSilently ⟨none, acc, isAuth, err0⟩ i scopes).popupAttempted = false
          ∧ (acquireTokenSilently ⟨none, acc, isAuth, err0⟩ i scopes).result = .ok none
          ∧ (getAccessToken ⟨none, ds⟩ i scopes).popupAttempted = false
          ∧ (getAccessToken ⟨none, ds⟩ i scopes).result = .ok none) := by
  refine ⟨?_, ?_, ?_, ?_, ?_, ?_, ?_, rfl, rfl, rfl, rfl⟩
  · unfold acquireTokenSilently
    dsimp only
    split_ifs with hg
    · rfl
    · cases m.silentResult i <;> dsimp only <;>
        (first | rfl | (cases m.popupResult i <;> rfl))
  · unfold acquireTokenSilently
    dsimp only
    cases isAuth <;> cases acc <;>
      simp only [Bool.not_true, Bool.not_false, Bool.true_or, Bool.false_or,
        List.isEmpty_cons, List.isEmpty_nil, Bool.or_true, Bool.or_false,
        Bool.true_and, Bool.false_and, Bool.and_false, Bool.and_true,
        if_true, if_false] <;>
      first
        | rfl
        | (cases hsr : m.silentResult i <;> dsimp only <;>
            simp only [isInteractionRequired] <;>
            first | rfl | (cases m.popupResult i <;> rfl))
  · intro msg hAuth hacc hsr
    cases hAuth
    rcases acc with _ | ⟨a0, arest⟩
    · exact absurd rfl hacc
    · unfold acquireTokenSilently
      dsimp only
      rw [hsr]
      exact ⟨rfl, rfl⟩
  · intro hAuth hacc hsr hpr
    cases hAuth
    rcases acc with _ | ⟨a0, arest⟩
    · exact absurd rfl hacc
    · unfold acquireTokenSilently
      dsimp only
      rw [hsr, hpr]
      exact ⟨rfl, rfl⟩
  · unfold getAccessToken
    dsimp only
    split_ifs with hg
    · rfl
    · cases m.silentResult i <;> dsimp only <;>
        (first | rfl | (cases m.popupResult i <;> rfl))
  · unfold getAccessToken
    dsimp only
    rcases hma : m.accounts with _ | ⟨a0, arest⟩ <;>
      simp only [hma, List.isEmpty_cons, List.isEmpty_nil, Bool.not_true, Bool.not_false,
        Bool.true_and, Bool.false_and, if_true, if_false] <;>
      first
        | rfl
        | (cases hsr : m.silentResult i <;> dsimp only <;>
            simp only [isSilentOk] <;>
            first | rfl | (cases m.popupResult i <;> rfl))
  · intro hacc hsr hpr
    unfold getAccessToken
    dsimp only
    rw [if_neg (by simpa [List.isEmpty_iff] using hacc)]
    cases hms : m.silentResult i
    · rw [hms] at hsr
      exact absurd hsr (by simp [isSilentOk])
    · rw [hpr]
    · rw [hpr]

/-- The MSAL oracle of the C3 witness: interaction-required silent
failure, failing popup. -/
def c3wm : MsalOracle :=
  ⟨["acct"], fun _ => .errInteractionRequired, fun _ => none, none, none⟩

/-- Witness for the amended C3 theorem at a concrete oracle: the failed
popup escalation yields null with the diagnostic error set in the auth
context, and yields null from the dispatcher. -/
theorem c3_amended_witness :
    (acquireTokenSilently ⟨some c3wm, ["acct"], true, none⟩ 0 ["User.Read"]).result = .ok none
      ∧ (acquireTokenSilently ⟨some c3wm, ["acct"], true, none⟩ 0 ["User.Read"]).errorAfter
          = some "Failed to acquire token"
      ∧ (getAccessToken ⟨some c3wm, ["User.Read"]⟩ 0 ["User.Read"]).result = .ok none :=
  ⟨((c3_amended c3wm ["acct"] true none ["User.Read"] 0 ["User.Read"]).2.2.2.1
      rfl (by simp) rfl rfl).1,
    ((c3_amended c3wm ["acct"] true none ["User.Read"] 0 ["User.Read"]).2.2.2.1
      rfl (by simp) rfl rfl).2,
    (c3_amended c3wm ["acct"] true none ["User.Read"] 0 ["User.Read"]).2.2.2.2.2.2.1
      (by simp [c3m, c3wm]) rfl rfl⟩

/-! ### C7: upload body and content type -/

/-- An authenticated client for the upload scenario. -/
def c7client : AuthenticatedApiClient :=
  ⟨some ⟨["acct"], fun _ => .ok "tok", fun _ => none, none, none⟩, ["User.Read"]⟩

/-- A transport that always answers 200. -/
def c7resp : Nat → Response :=
  fun _ => ⟨200⟩

/-- Claim C7 at the failing input: the upload request's body is indeed the
multipart `FormData` (not JSON), and `post` does JSON-encode its body —
but the dispatched upload request carries an explicit
`Content-Type: application/json` header, injected by `authenticatedFetch`'s
baseline headers despite the upload code's own comment that no content
type must be set so the transport can pick the multipart boundary. -/
theorem c7_upload_sends_json_content_type :
    (∃ call, (uploadFileAuthenticated c7client c7resp "a.txt" [] "").calls = [call]
      ∧ call.body = some (RequestBody.formData [("file", "a.txt")])
      ∧ lookupHeader call.headers "Content-Type" = some "application/json")
      ∧ (∀ b : JsValue, ∃ call,
          (post c7client "/x" (some b) ⟨none, none, [], none, false⟩ c7resp).calls = [call]
            ∧ call.body
                = (if jsTruthy b then some (RequestBody.json (jsonStringify b)) else none))
      ∧ (∀ b : JsValue, ∃ call,
          (put c7client "/x" (some b) ⟨none, none, [], none, false⟩ c7resp).calls = [call]
            ∧ call.body
                = (if jsTruthy b then some (RequestBody.json (jsonStringify b)) else none)) := by
  refine ⟨⟨_, rfl, rfl, rfl⟩, ?_, ?_⟩
  · intro b
    exact ⟨_, rfl, rfl⟩
  · intro b
    exact ⟨_, rfl, rfl⟩

/-! ### C8: operations before the client handle exists -/

/-- Claim C8 counterexample: with the dispatcher's singleton client (no
MSAL instance set), `authenticatedFetch` completes normally — the token
acquisition resolves to null (not an error), the request goes out with
only the baseline header and no `Authorization`, and the transport's
response is returned to the caller with nothing reporting the missing
client handle. -/
theorem c8_counterexample :
    (getAccessToken apiClient 0 ["User.Read"]).result = .ok none
      ∧ (authenticatedFetch apiClient "/info" ⟨some "GET", none, [], none, false⟩
          (fun _ => ⟨200⟩)).calls
          = [⟨"/info", some "GET", [("Content-Type", "application/json")], none⟩]
      ∧ (authenticatedFetch apiClient "/info" ⟨some "GET", none, [], none, false⟩
          (fun _ => ⟨200⟩)).result = .ok ⟨200⟩ :=
  ⟨rfl, rfl, rfl⟩

/-- Claim C8 amended: `login()` and `logout()` do fail explicitly (throw
`MSAL instance not initialized`) when no client handle exists; but token
acquisition for a dispatched request does not report the missing handle —
`getAccessToken` resolves to null after only a console warning, and the
dispatch proceeds without an `Authorization` header, returning the
transport's response to the caller as if nothing were wrong. -/
theorem c8_amended (st : AuthState) (ds : List String) (url : String) (opts : FetchOptions)
    (responses : Nat → Response) :
    (st.msal = none → login st = (.error "MSAL instance not initialized", st))
      ∧ (st.msal = none → logout st = (.error "MSAL instance not initialized", st))
      ∧ (opts.skipAuth = false →
          (authenticatedFetch ⟨none, ds⟩ url opts responses).calls
              = [⟨url, opts.method,
                  mergeHeaders [("Content-Type", "application/json")] opts.headers, opts.body⟩]
            ∧ (authenticatedFetch ⟨none, ds⟩ url opts responses).result = .ok (responses 0))
      ∧ (opts.skipAuth = false → lookupHeader opts.headers "Authorization" = none →
          ∀ call ∈ (authenticatedFetch ⟨none, ds⟩ url opts responses).calls,
            lookupHeader call.headers "Authorization" = none) := by
  have key : opts.skipAuth = false →
      (authenticatedFetch ⟨none, ds⟩ url opts responses).calls
          = [⟨url, opts.method,
              mergeHeaders [("Content-Type", "application/json")] opts.headers, opts.body⟩]
        ∧ (authenticatedFetch ⟨none, ds⟩ url opts responses).result = .ok (responses 0) := by
    intro hskip
    unfold authenticatedFetch
    rw [hskip]
    simp only [Bool.false_eq_true, if_false]
    dsimp only [getAccessToken]
    split_ifs with h4
    · exact ⟨rfl, rfl⟩
    · exact ⟨rfl, rfl⟩
  refine ⟨?_, ?_, key, ?_⟩
  · intro h
    rcases st with ⟨ms, acc, ia, er⟩
    dsimp only at h
    subst h
    rfl
  · intro h
    rcases st with ⟨ms, acc, ia, er⟩
    dsimp only at h
    subst h
    rfl
  · intro hskip hnone call hcall
    rw [(key hskip).1, List.mem_singleton] at hcall
    subst hcall
    exact lookupHeader_mergeHeaders_none _ _ _ rfl
      ((lookupHeader_eq_none_iff _ _).mp hnone)

/-- Witness for the amended C8 theorem at concrete values: `login` throws
the not-initialized error, while a dispatched request with no client
handle returns the transport's 200 response normally. -/
theorem c8_amended_witness :
    login ⟨none, [], false, none⟩
        = (.error "MSAL instance not initialized", ⟨none, [], false, none⟩)
      ∧ (authenticatedFetch ⟨none, ["User.Read"]⟩ "/info"
          ⟨some "GET", none, [], none, false⟩ (fun _ => ⟨200⟩)).result = .ok ⟨200⟩ :=
  ⟨(c8_amended ⟨none, [], false, none⟩ ["User.Read"] "/info"
      ⟨some "GET", none, [], none, false⟩ (fun _ => ⟨200⟩)).1 rfl,
    ((c8_amended ⟨none, [], false, none⟩ ["User.Read"] "/info"
      ⟨some "GET", none, [], none, false⟩ (fun _ => ⟨200⟩)).2.2.1 rfl).2⟩

/-! ### C9: the createApiProxy flag -/

/-- The API functions the proxy can select between; only the
authenticated variants exist as selectable values in
`authenticatedApi.ts`'s proxy. -/
inductive ApiImpl where
  | chatApiAuthenticated
  | getAllUploadStatusAuthenticated
  | deleteItemAuthenticated
  | resubmitItemAuthenticated
  | getInfoAuthenticated
  | getWarningBannerAuthenticated
  | getApplicationTitleAuthenticated
  | getStatusLogAuthenticated
  | getTagsAuthenticated
  | getFeatureFlagsAuthenticated
  | getMaxCSVFileSizeAuthenticated
  | fetchCitationFileAuthenticated
  | uploadFileAuthenticated
deriving Repr, DecidableEq

/-- The object returned by `createApiProxy`: thirteen members. -/
structure ApiProxy where
  chatApi : ApiImpl
  getAllUploadStatus : ApiImpl
  deleteItem : ApiImpl
  resubmitItem : ApiImpl
  getInfo : ApiImpl
  getWarningBanner : ApiImpl
  getApplicationTitle : ApiImpl
  getStatusLog : ApiImpl
  getTags : ApiImpl
  getFeatureFlags : ApiImpl
  getMaxCSVFileSize : ApiImpl
  fetchCitationFile : ApiImpl
  uploadFile : ApiImpl
deriving Repr, DecidableEq

/-- `createApiProxy` as written: every member is a conditional whose two
branches name the same authenticated function. -/
def createApiProxy (useAuthenticated : Bool) : ApiProxy :=
  { chatApi := if useAuthenticated then ApiImpl.chatApiAuthenticated
               else ApiImpl.chatApiAuthenticated
    getAllUploadStatus := if useAuthenticated then ApiImpl.getAllUploadStatusAuthenticated
                          else ApiImpl.getAllUploadStatusAuthenticated
    deleteItem := if useAuthenticated then ApiImpl.deleteItemAuthenticated
                  else ApiImpl.deleteItemAuthenticated
    resubmitItem := if useAuthenticated then ApiImpl.resubmitItemAuthenticated
                    else ApiImpl.resubmitItemAuthenticated
    getInfo := if useAuthenticated then ApiImpl.getInfoAuthenticated
               else ApiImpl.getInfoAuthenticated
    getWarningBanner := if useAuthenticated then ApiImpl.getWarningBannerAuthenticated
                        else ApiImpl.getWarningBannerAuthenticated
    getApplicationTitle := if useAuthenticated then ApiImpl.getApplicationTitleAuthenticated
                           else ApiImpl.getApplicationTitleAuthenticated
    getStatusLog := if useAuthenticated then ApiImpl.getStatusLogAuthenticated
                    else ApiImpl.getStatusLogAuthenticated
    getTags := if useAuthenticated then ApiImpl.getTagsAuthenticated
               else ApiImpl.getTagsAuthenticated
    getFeatureFlags := if useAuthenticated then ApiImpl.getFeatureFlagsAuthenticated
                       else ApiImpl.getFeatureFlagsAuthenticated
    getMaxCSVFileSize := if useAuthenticated then ApiImpl.getMaxCSVFileSizeAuthenticated
                         else ApiImpl.getMaxCSVFileSizeAuthenticated
    fetchCitationFile := if useAuthenticated then ApiImpl.fetchCitationFileAuthenticated
                         else ApiImpl.fetchCitationFileAuthenticated
    uploadFile := if useAuthenticated then ApiImpl.uploadFileAuthenticated
                  else ApiImpl.uploadFileAuthenticated }

/-- The proxy with every member fixed to its authenticated variant — what
the spec observes the flag-independent behaviour to be. -/
def createApiProxySpec : ApiProxy :=
  ⟨ApiImpl.chatApiAuthenticated, ApiImpl.getAllUploadStatusAuthenticated,
    ApiImpl.deleteItemAuthenticated, ApiImpl.resubmitItemAuthenticated,
    ApiImpl.getInfoAuthenticated, ApiImpl.getWarningBannerAuthenticated,
    ApiImpl.getApplicationTitleAuthenticated, ApiImpl.getStatusLogAuthenticated,
    ApiImpl.getTagsAuthenticated, ApiImpl.getFeatureFlagsAuthenticated,
    ApiImpl.getMaxCSVFileSizeAuthenticated, ApiImpl.fetchCitationFileAuthenticated,
    ApiImpl.uploadFileAuthenticated⟩

/-- Claim C9 (confirmed): for every flag value the proxy consists of the
thirteen authenticated variants, so `createApiProxy true` and
`createApiProxy false` are equal. -/
theorem c9_proxy_flag_irrelevant :
    (∀ b, createApiProxy b = createApiProxySpec)
      ∧ createApiProxy true = createApiProxy false := by
  refine ⟨?_, rfl⟩
  intro b
  cases b <;> rfl
